import Mathlib

/-!
Shallow embedding of the snake-game simulation core
(`src/snake_raw.cpp` and `src/snake_win.cpp`) and verification of the
specification's claims about it.

The randomized parts of the C++ code (the RNG feeding `place_food`) are
externalized: `placeFood` receives the stream of candidate cells the RNG
would have produced and returns the first one not on the snake, or `none`
when the stream is exhausted (modelling the code's unbounded retry loop).
Sound playback is modelled by returning the list of sound identifiers the
tick emits, in emission order.
-/

namespace Snake

structure Point where
  r : Int
  c : Int
deriving DecidableEq, Repr

instance : Inhabited Point := ⟨⟨0, 0⟩⟩

inductive Dir
  | Up
  | Down
  | Left
  | Right
deriving DecidableEq, Repr

structure Poop where
  p : Point
  ttl : Int
deriving DecidableEq, Repr

inductive Sound
  | bite
  | fart
  | levelup
deriving DecidableEq, Repr

def ROWS : Int := 20

def COLS : Int := 80

def POOP_TTL : Int := 12

def CHOMP_TOTAL : Int := 8

def BASE_TICK_MS : Int := 100

def MIN_TICK_MS : Int := 30

def TICK_DECR_MS : Int := 15

/-- `Game::wrap` from the source: one-step clamp-style wraparound. -/
def wrap (p : Point) : Point :=
  let r := if p.r < 0 then ROWS - 1 else if ROWS ≤ p.r then 0 else p.r
  let c := if p.c < 0 then COLS - 1 else if COLS ≤ p.c then 0 else p.c
  ⟨r, c⟩

/-- `Game::next_head`: one unit step in the current direction, then wrap. -/
def nextHead (d : Dir) (head : Point) : Point :=
  wrap (match d with
    | Dir.Up => ⟨head.r - 1, head.c⟩
    | Dir.Down => ⟨head.r + 1, head.c⟩
    | Dir.Left => ⟨head.r, head.c - 1⟩
    | Dir.Right => ⟨head.r, head.c + 1⟩)

/-- The `any_of` self/occupancy test used throughout the source. -/
def onSnake (p : Point) (s : List Point) : Bool :=
  s.any (fun q => decide (q.r = p.r ∧ q.c = p.c))

/-- `Game::place_food`: first RNG candidate not on the snake. -/
def placeFood (snake : List Point) : List Point → Option Point
  | [] => none
  | p :: rest => if onSnake p snake then placeFood snake rest else some p

/-- `Game::decay_poops`: decrement every ttl, then erase those with ttl ≤ 0. -/
def decayPoops (ps : List Poop) : List Poop :=
  (ps.map (fun q => ⟨q.p, q.ttl - 1⟩)).filter (fun q => decide (0 < q.ttl))

/-- Game state of `snake_raw.cpp` (RNG externalized). -/
structure Game where
  snake : List Point
  dir : Dir
  food : Point
  game_over : Bool
  score : Int
  consuming : Bool
  chomp_frames : Int
  poop_to_drop : Int
  poops : List Poop
deriving DecidableEq, Repr

/-- The constructor's initial three-segment snake. -/
def initSnake : List Point :=
  [⟨ROWS / 2, COLS / 2⟩, ⟨ROWS / 2, COLS / 2 - 1⟩, ⟨ROWS / 2, COLS / 2 - 2⟩]

/-- `Game::Game()`: three segments then `place_food` (fed candidates `cs`). -/
def initGame (cs : List Point) : Option Game :=
  match placeFood initSnake cs with
  | none => none
  | some f =>
    some { snake := initSnake
           dir := Dir.Right
           food := f
           game_over := false
           score := 0
           consuming := false
           chomp_frames := 0
           poop_to_drop := 0
           poops := [] }

/-- `Game::update` of `snake_raw.cpp`.  Returns the successor state and the
list of sound identifiers emitted this tick (`none` only when the
`place_food` retry loop exhausts its candidate stream). -/
def update (g : Game) (cs : List Point) : Option (Game × List Sound) :=
  if g.game_over then some (g, [])
  else
    let ps := decayPoops g.poops
    if g.consuming then
      let cf := g.chomp_frames - 1
      if cf ≤ 0 then
        let nh := nextHead g.dir g.snake.headI
        if onSnake nh g.snake then
          some ({ g with poops := ps, chomp_frames := cf, game_over := true }, [])
        else
          match placeFood (nh :: g.snake) cs with
          | none => none
          | some f =>
            some ({ g with
                    poops := ps
                    chomp_frames := cf
                    snake := nh :: g.snake
                    score := g.score + 10
                    poop_to_drop := 3
                    food := f
                    consuming := false },
                  [Sound.bite])
      else
        some ({ g with poops := ps, chomp_frames := cf }, [])
    else
      let nh := nextHead g.dir g.snake.headI
      if nh.r = g.food.r ∧ nh.c = g.food.c then
        some ({ g with
                poops := ps
                consuming := true
                chomp_frames := CHOMP_TOTAL }, [])
      else if onSnake nh g.snake then
        some ({ g with poops := ps, game_over := true }, [])
      else
        let tail_before := g.snake.getLastD default
        let snake2 := (nh :: g.snake).dropLast
        if 0 < g.poop_to_drop then
          some ({ g with
                  poops := ps ++ [⟨tail_before, POOP_TTL⟩]
                  snake := snake2
                  poop_to_drop := g.poop_to_drop - 1 },
                [Sound.fart])
        else
          some ({ g with poops := ps, snake := snake2 }, [])

/-- Iterate `update`, one candidate stream per tick, discarding sounds. -/
def run (g : Game) : List (List Point) → Option Game
  | [] => some g
  | cs :: rest =>
    match update g cs with
    | none => none
    | some (g2, _) => run g2 rest

/-- Game state of `snake_win.cpp` (adds level bookkeeping). -/
structure WGame where
  snake : List Point
  dir : Dir
  food : Point
  game_over : Bool
  score : Int
  consuming : Bool
  chomp_frames : Int
  poop_to_drop : Int
  poops : List Poop
  level : Int
  level_flash : Int
  level_up_trigger : Bool
deriving DecidableEq, Repr

/-- `Game::update` of `snake_win.cpp`. -/
def wupdate (g : WGame) (cs : List Point) : Option (WGame × List Sound) :=
  if g.game_over then some (g, [])
  else
    let ps := decayPoops g.poops
    let lf := if 0 < g.level_flash then g.level_flash - 1 else g.level_flash
    if g.consuming then
      let cf := g.chomp_frames - 1
      if cf ≤ 0 then
        let nh := nextHead g.dir g.snake.headI
        if onSnake nh g.snake then
          some ({ g with
                  poops := ps
                  level_flash := lf
                  chomp_frames := cf
                  game_over := true }, [])
        else
          match placeFood (nh :: g.snake) cs with
          | none => none
          | some f =>
            if (g.score + 10) % 100 = 0 then
              some ({ g with
                      poops := ps
                      chomp_frames := cf
                      snake := nh :: g.snake
                      score := g.score + 10
                      level := g.level + 1
                      level_flash := 12
                      level_up_trigger := true
                      poop_to_drop := 3
                      food := f
                      consuming := false },
                    [Sound.levelup, Sound.bite])
            else
              some ({ g with
                      poops := ps
                      level_flash := lf
                      chomp_frames := cf
                      snake := nh :: g.snake
                      score := g.score + 10
                      poop_to_drop := 3
                      food := f
                      consuming := false },
                    [Sound.bite])
      else
        some ({ g with poops := ps, level_flash := lf, chomp_frames := cf }, [])
    else
      let nh := nextHead g.dir g.snake.headI
      if nh.r = g.food.r ∧ nh.c = g.food.c then
        some ({ g with
                poops := ps
                level_flash := lf
                consuming := true
                chomp_frames := CHOMP_TOTAL }, [])
      else if onSnake nh g.snake then
        some ({ g with poops := ps, level_flash := lf, game_over := true }, [])
      else
        let tail_before := g.snake.getLastD default
        let snake2 := (nh :: g.snake).dropLast
        if 0 < g.poop_to_drop then
          some ({ g with
                  poops := ps ++ [⟨tail_before, POOP_TTL⟩]
                  level_flash := lf
                  snake := snake2
                  poop_to_drop := g.poop_to_drop - 1 }, [Sound.fart])
        else
          some ({ g with poops := ps, level_flash := lf, snake := snake2 }, [])

/-- `main`'s per-update speed adjustment in `snake_win.cpp`:
`tick_ms = max(MIN_TICK_MS, tick_ms - TICK_DECR_MS)` when the level-up
trigger is set, else unchanged. -/
def applyLevelUp (trigger : Bool) (tick_ms : Int) : Int :=
  if trigger then max MIN_TICK_MS (tick_ms - TICK_DECR_MS) else tick_ms

/-- Tick interval after a sequence of tick batches, each either carrying a
level-up trigger or not, starting from the base interval. -/
def speedAfter (triggers : List Bool) : Int :=
  triggers.foldl (fun t b => applyLevelUp b t) BASE_TICK_MS

/-- Modelled from the spec: no idle/growth policy exists in `src/`; §4.5 of
the spec says only "Tracks ticks elapsed since the last accepted direction
change. Threshold decreases as level increases (never below a floor)".
Modelled as a base threshold minus a per-level step, floor-clamped. -/
def idleThreshold (level : Int) : Int :=
  max 20 (100 - 10 * (level - 1))

/-- A state about to self-collide: the head at (0,0) moving Down runs into
the body cell (1,0). -/
def gC1 : Game :=
  { snake := [⟨0, 0⟩, ⟨0, 1⟩, ⟨1, 1⟩, ⟨1, 0⟩]
    dir := Dir.Down
    food := ⟨5, 5⟩
    game_over := false
    score := 0
    consuming := false
    chomp_frames := 0
    poop_to_drop := 0
    poops := [] }

/-- A mid-game state holding one Poop whose ttl expires on the next tick. -/
def gC2 : Game :=
  { snake := [⟨5, 10⟩, ⟨5, 9⟩, ⟨5, 8⟩]
    dir := Dir.Right
    food := ⟨0, 0⟩
    game_over := false
    score := 0
    consuming := false
    chomp_frames := 0
    poop_to_drop := 0
    poops := [⟨⟨3, 3⟩, 1⟩] }

/-- The state `update gC2 []` produces: the expired Poop is gone and the
snake has moved one cell; nothing else changed. -/
def gC2res : Game :=
  { snake := [⟨5, 11⟩, ⟨5, 10⟩, ⟨5, 9⟩]
    dir := Dir.Right
    food := ⟨0, 0⟩
    game_over := false
    score := 0
    consuming := false
    chomp_frames := 0
    poop_to_drop := 0
    poops := [] }

/-- A `snake_win.cpp` state on the last eating-animation frame with
score 90, so completing the eat crosses the 100-point level boundary. -/
def gC3 : WGame :=
  { snake := [⟨10, 40⟩, ⟨10, 39⟩, ⟨10, 38⟩]
    dir := Dir.Right
    food := ⟨10, 42⟩
    game_over := false
    score := 90
    consuming := true
    chomp_frames := 1
    poop_to_drop := 0
    poops := []
    level := 1
    level_flash := 0
    level_up_trigger := false }

/-- The state `wupdate gC3 [⟨0,0⟩]` produces: grown, score 100, level 2. -/
def gC3res : WGame :=
  { snake := [⟨10, 41⟩, ⟨10, 40⟩, ⟨10, 39⟩, ⟨10, 38⟩]
    dir := Dir.Right
    food := ⟨0, 0⟩
    game_over := false
    score := 100
    consuming := false
    chomp_frames := 0
    poop_to_drop := 3
    poops := []
    level := 2
    level_flash := 12
    level_up_trigger := true }

/-- The C7 scenario start state: a three-segment snake moving Right with
Food exactly two cells ahead of the head, on an otherwise empty board. -/
def gC7 : Game :=
  { snake := [⟨10, 40⟩, ⟨10, 39⟩, ⟨10, 38⟩]
    dir := Dir.Right
    food := ⟨10, 42⟩
    game_over := false
    score := 0
    consuming := false
    chomp_frames := 0
    poop_to_drop := 0
    poops := [] }

/-- The constructed game when the first RNG candidate is (0,0). -/
def gInit : Game :=
  { snake := initSnake
    dir := Dir.Right
    food := ⟨0, 0⟩
    game_over := false
    score := 0
    consuming := false
    chomp_frames := 0
    poop_to_drop := 0
    poops := [] }

lemma onSnake_eq_true_iff (p : Point) (s : List Point) :
    onSnake p s = true ↔ ∃ q ∈ s, q.r = p.r ∧ q.c = p.c := by
  simp [onSnake]

lemma onSnake_eq_false_iff (p : Point) (s : List Point) :
    onSnake p s = false ↔ ∀ q ∈ s, ¬(q.r = p.r ∧ q.c = p.c) := by
  simp [onSnake]

lemma placeFood_not_onSnake (snake : List Point) :
    ∀ (cs : List Point) (f : Point), placeFood snake cs = some f →
      onSnake f snake = false := by
  intro cs
  induction cs with
  | nil => intro f h; simp [placeFood] at h
  | cons p rest ih =>
    intro f h
    by_cases hp : onSnake p snake = true
    · simp [placeFood, hp] at h
      exact ih f h
    · simp [placeFood, hp] at h
      subst h
      simpa using hp

lemma length_dropLast_cons {α : Type} (x : α) (l : List α) :
    ((x :: l).dropLast).length = l.length := by
  simp [List.length_dropLast]

/-- Exhaustive characterization of one `update` tick of `snake_raw.cpp`:
the eight reachable branch outcomes. -/
lemma update_eq_cases (g : Game) (cs : List Point) (g' : Game) (s : List Sound)
    (h : update g cs = some (g', s)) :
    (g.game_over = true ∧ g' = g ∧ s = []) ∨
    (g.game_over = false ∧ g.consuming = true ∧ g.chomp_frames ≤ 1 ∧
      onSnake (nextHead g.dir g.snake.headI) g.snake = true ∧
      g' = { g with
             poops := decayPoops g.poops
             chomp_frames := g.chomp_frames - 1
             game_over := true } ∧
      s = []) ∨
    (g.game_over = false ∧ g.consuming = true ∧ g.chomp_frames ≤ 1 ∧
      onSnake (nextHead g.dir g.snake.headI) g.snake = false ∧
      ∃ f, placeFood (nextHead g.dir g.snake.headI :: g.snake) cs = some f ∧
        g' = { g with
               poops := decayPoops g.poops
               chomp_frames := g.chomp_frames - 1
               snake := nextHead g.dir g.snake.headI :: g.snake
               score := g.score + 10
               poop_to_drop := 3
               food := f
               consuming := false } ∧
        s = [Sound.bite]) ∨
    (g.game_over = false ∧ g.consuming = true ∧ ¬(g.chomp_frames ≤ 1) ∧
      g' = { g with
             poops := decayPoops g.poops
             chomp_frames := g.chomp_frames - 1 } ∧
      s = []) ∨
    (g.game_over = false ∧ g.consuming = false ∧
      ((nextHead g.dir g.snake.headI).r = g.food.r ∧
        (nextHead g.dir g.snake.headI).c = g.food.c) ∧
      g' = { g with
             poops := decayPoops g.poops
             consuming := true
             chomp_frames := CHOMP_TOTAL } ∧
      s = []) ∨
    (g.game_over = false ∧ g.consuming = false ∧
      ¬((nextHead g.dir g.snake.headI).r = g.food.r ∧
        (nextHead g.dir g.snake.headI).c = g.food.c) ∧
      onSnake (nextHead g.dir g.snake.headI) g.snake = true ∧
      g' = { g with poops := decayPoops g.poops, game_over := true } ∧
      s = []) ∨
    (g.game_over = false ∧ g.consuming = false ∧
      ¬((nextHead g.dir g.snake.headI).r = g.food.r ∧
        (nextHead g.dir g.snake.headI).c = g.food.c) ∧
      onSnake (nextHead g.dir g.snake.headI) g.snake = false ∧
      0 < g.poop_to_drop ∧
      g' = { g with
             poops := decayPoops g.poops ++ [⟨g.snake.getLastD default, POOP_TTL⟩]
             snake := (nextHead g.dir g.snake.headI :: g.snake).dropLast
             poop_to_drop := g.poop_to_drop - 1 } ∧
      s = [Sound.fart]) ∨
    (g.game_over = false ∧ g.consuming = false ∧
      ¬((nextHead g.dir g.snake.headI).r = g.food.r ∧
        (nextHead g.dir g.snake.headI).c = g.food.c) ∧
      onSnake (nextHead g.dir g.snake.headI) g.snake = false ∧
      ¬(0 < g.poop_to_drop) ∧
      g' = { g with
             poops := decayPoops g.poops
             snake := (nextHead g.dir g.snake.headI :: g.snake).dropLast } ∧
      s = []) := by
  cases hgo : g.game_over with
  | true =>
    simp [update, hgo] at h
    exact Or.inl ⟨rfl, h.1.symm, h.2⟩
  | false =>
    cases hcons : g.consuming with
    | true =>
      by_cases hch : g.chomp_frames ≤ 1
      · cases hcol : onSnake (nextHead g.dir g.snake.headI) g.snake with
        | true =>
          simp [update, hgo, hcons, hch, hcol] at h
          exact Or.inr (Or.inl ⟨rfl, rfl, hch, rfl, h.1.symm, h.2⟩)
        | false =>
          rcases hpf : placeFood (nextHead g.dir g.snake.headI :: g.snake) cs
            with _ | f
          · simp [update, hgo, hcons, hch, hcol, hpf] at h
          · simp [update, hgo, hcons, hch, hcol, hpf] at h
            exact Or.inr (Or.inr (Or.inl
              ⟨rfl, rfl, hch, rfl, f, rfl, h.1.symm, h.2.symm⟩))
      · simp [update, hgo, hcons, hch] at h
        exact Or.inr (Or.inr (Or.inr (Or.inl ⟨rfl, rfl, hch, h.1.symm, h.2⟩)))
    | false =>
      by_cases hfood : (nextHead g.dir g.snake.headI).r = g.food.r ∧
          (nextHead g.dir g.snake.headI).c = g.food.c
      · simp [update, hgo, hcons, hfood] at h
        exact Or.inr (Or.inr (Or.inr (Or.inr (Or.inl
          ⟨rfl, rfl, hfood, h.1.symm, h.2⟩))))
      · cases hcol : onSnake (nextHead g.dir g.snake.headI) g.snake with
        | true =>
          simp [update, hgo, hcons, hfood, hcol] at h
          exact Or.inr (Or.inr (Or.inr (Or.inr (Or.inr (Or.inl
            ⟨rfl, rfl, hfood, rfl, h.1.symm, h.2⟩)))))
        | false =>
          by_cases hpd : 0 < g.poop_to_drop
          · simp [update, hgo, hcons, hfood, hcol, hpd] at h
            refine Or.inr (Or.inr (Or.inr (Or.inr (Or.inr (Or.inr (Or.inl
              ⟨rfl, rfl, hfood, rfl, hpd, ?_, h.2.symm⟩))))))
            rw [← h.1]
            simp [List.getLastD_eq_getLast?]
          · simp [update, hgo, hcons, hfood, hcol, hpd] at h
            exact Or.inr (Or.inr (Or.inr (Or.inr (Or.inr (Or.inr (Or.inr
              ⟨rfl, rfl, hfood, rfl, hpd, h.1.symm, h.2⟩))))))

/-- Exhaustive characterization of one `update` tick of `snake_win.cpp`. -/
lemma wupdate_eq_cases (g : WGame) (cs : List Point) (g' : WGame) (s : List Sound)
    (h : wupdate g cs = some (g', s)) :
    (g.game_over = true ∧ g' = g ∧ s = []) ∨
    (g.game_over = false ∧ g.consuming = true ∧ g.chomp_frames ≤ 1 ∧
      onSnake (nextHead g.dir g.snake.headI) g.snake = true ∧
      g' = { g with
             poops := decayPoops g.poops
             level_flash := if 0 < g.level_flash then g.level_flash - 1
               else g.level_flash
             chomp_frames := g.chomp_frames - 1
             game_over := true } ∧
      s = []) ∨
    (g.game_over = false ∧ g.consuming = true ∧ g.chomp_frames ≤ 1 ∧
      onSnake (nextHead g.dir g.snake.headI) g.snake = false ∧
      (g.score + 10) % 100 = 0 ∧
      ∃ f, placeFood (nextHead g.dir g.snake.headI :: g.snake) cs = some f ∧
        g' = { g with
               poops := decayPoops g.poops
               chomp_frames := g.chomp_frames - 1
               snake := nextHead g.dir g.snake.headI :: g.snake
               score := g.score + 10
               level := g.level + 1
               level_flash := 12
               level_up_trigger := true
               poop_to_drop := 3
               food := f
               consuming := false } ∧
        s = [Sound.levelup, Sound.bite]) ∨
    (g.game_over = false ∧ g.consuming = true ∧ g.chomp_frames ≤ 1 ∧
      onSnake (nextHead g.dir g.snake.headI) g.snake = false ∧
      ¬((g.score + 10) % 100 = 0) ∧
      ∃ f, placeFood (nextHead g.dir g.snake.headI :: g.snake) cs = some f ∧
        g' = { g with
               poops := decayPoops g.poops
               level_flash := if 0 < g.level_flash then g.level_flash - 1
                 else g.level_flash
               chomp_frames := g.chomp_frames - 1
               snake := nextHead g.dir g.snake.headI :: g.snake
               score := g.score + 10
               poop_to_drop := 3
               food := f
               consuming := false } ∧
        s = [Sound.bite]) ∨
    (g.game_over = false ∧ g.consuming = true ∧ ¬(g.chomp_frames ≤ 1) ∧
      g' = { g with
             poops := decayPoops g.poops
             level_flash := if 0 < g.level_flash then g.level_flash - 1
               else g.level_flash
             chomp_frames := g.chomp_frames - 1 } ∧
      s = []) ∨
    (g.game_over = false ∧ g.consuming = false ∧
      ((nextHead g.dir g.snake.headI).r = g.food.r ∧
        (nextHead g.dir g.snake.headI).c = g.food.c) ∧
      g' = { g with
             poops := decayPoops g.poops
             level_flash := if 0 < g.level_flash then g.level_flash - 1
               else g.level_flash
             consuming := true
             chomp_frames := CHOMP_TOTAL } ∧
      s = []) ∨
    (g.game_over = false ∧ g.consuming = false ∧
      ¬((nextHead g.dir g.snake.headI).r = g.food.r ∧
        (nextHead g.dir g.snake.headI).c = g.food.c) ∧
      onSnake (nextHead g.dir g.snake.headI) g.snake = true ∧
      g' = { g with
             poops := decayPoops g.poops
             level_flash := if 0 < g.level_flash then g.level_flash - 1
               else g.level_flash
             game_over := true } ∧
      s = []) ∨
    (g.game_over = false ∧ g.consuming = false ∧
      ¬((nextHead g.dir g.snake.headI).r = g.food.r ∧
        (nextHead g.dir g.snake.headI).c = g.food.c) ∧
      onSnake (nextHead g.dir g.snake.headI) g.snake = false ∧
      0 < g.poop_to_drop ∧
      g' = { g with
             poops := decayPoops g.poops ++
               [⟨g.snake.getLastD default, POOP_TTL⟩]
             level_flash := if 0 < g.level_flash then g.level_flash - 1
               else g.level_flash
             snake := (nextHead g.dir g.snake.headI :: g.snake).dropLast
             poop_to_drop := g.poop_to_drop - 1 } ∧
      s = [Sound.fart]) ∨
    (g.game_over = false ∧ g.consuming = false ∧
      ¬((nextHead g.dir g.snake.headI).r = g.food.r ∧
        (nextHead g.dir g.snake.headI).c = g.food.c) ∧
      onSnake (nextHead g.dir g.snake.headI) g.snake = false ∧
      ¬(0 < g.poop_to_drop) ∧
      g' = { g with
             poops := decayPoops g.poops
             level_flash := if 0 < g.level_flash then g.level_flash - 1
               else g.level_flash
             snake := (nextHead g.dir g.snake.headI :: g.snake).dropLast } ∧
      s = []) := by
  cases hgo : g.game_over with
  | true =>
    simp [wupdate, hgo] at h
    exact Or.inl ⟨rfl, h.1.symm, h.2⟩
  | false =>
    cases hcons : g.consuming with
    | true =>
      by_cases hch : g.chomp_frames ≤ 1
      · cases hcol : onSnake (nextHead g.dir g.snake.headI) g.snake with
        | true =>
          simp [wupdate, hgo, hcons, hch, hcol] at h
          exact Or.inr (Or.inl ⟨rfl, rfl, hch, rfl, h.1.symm, h.2⟩)
        | false =>
          rcases hpf : placeFood (nextHead g.dir g.snake.headI :: g.snake) cs
            with _ | f
          · simp [wupdate, hgo, hcons, hch, hcol, hpf] at h
          · by_cases hlvl : (g.score + 10) % 100 = 0
            · simp [wupdate, hgo, hcons, hch, hcol, hpf, hlvl] at h
              exact Or.inr (Or.inr (Or.inl
                ⟨rfl, rfl, hch, rfl, hlvl, f, rfl, h.1.symm, h.2.symm⟩))
            · simp [wupdate, hgo, hcons, hch, hcol, hpf, hlvl] at h
              exact Or.inr (Or.inr (Or.inr (Or.inl
                ⟨rfl, rfl, hch, rfl, hlvl, f, rfl, h.1.symm, h.2.symm⟩)))
      · simp [wupdate, hgo, hcons, hch] at h
        exact Or.inr (Or.inr (Or.inr (Or.inr (Or.inl
          ⟨rfl, rfl, hch, h.1.symm, h.2⟩))))
    | false =>
      by_cases hfood : (nextHead g.dir g.snake.headI).r = g.food.r ∧
          (nextHead g.dir g.snake.headI).c = g.food.c
      · simp [wupdate, hgo, hcons, hfood] at h
        exact Or.inr (Or.inr (Or.inr (Or.inr (Or.inr (Or.inl
          ⟨rfl, rfl, hfood, h.1.symm, h.2⟩)))))
      · cases hcol : onSnake (nextHead g.dir g.snake.headI) g.snake with
        | true =>
          simp [wupdate, hgo, hcons, hfood, hcol] at h
          exact Or.inr (Or.inr (Or.inr (Or.inr (Or.inr (Or.inr (Or.inl
            ⟨rfl, rfl, hfood, rfl, h.1.symm, h.2⟩))))))
        | false =>
          by_cases hpd : 0 < g.poop_to_drop
          · simp [wupdate, hgo, hcons, hfood, hcol, hpd] at h
            refine Or.inr (Or.inr (Or.inr (Or.inr (Or.inr (Or.inr (Or.inr
              (Or.inl ⟨rfl, rfl, hfood, rfl, hpd, ?_, h.2.symm⟩)))))))
            rw [← h.1]
            simp [List.getLastD_eq_getLast?]
          · simp [wupdate, hgo, hcons, hfood, hcol, hpd] at h
            exact Or.inr (Or.inr (Or.inr (Or.inr (Or.inr (Or.inr (Or.inr
              (Or.inr ⟨rfl, rfl, hfood, rfl, hpd, h.1.symm, h.2⟩)))))))

lemma decayPoops_nil : decayPoops [] = [] := rfl

lemma decayIter_singleton (n : Nat) :
    ∀ (t : Int) (p : Point), 0 < t →
      decayPoops^[n] [⟨p, t⟩] =
        if (n : Int) < t then [⟨p, t - (n : Int)⟩] else [] := by
  induction n with
  | zero =>
    intro t p ht
    simp [ht]
  | succ n ih =>
    intro t p ht
    rw [Function.iterate_succ_apply]
    by_cases ht1 : 0 < t - 1
    · have hstep : decayPoops [⟨p, t⟩] = [⟨p, t - 1⟩] := by
        simp [decayPoops, ht1]
      rw [hstep, ih (t - 1) p ht1]
      by_cases hnt : (n : Int) < t - 1
      · rw [if_pos hnt, if_pos (show ((n + 1 : Nat) : Int) < t by push_cast; omega)]
        simp only [List.cons.injEq, Poop.mk.injEq, and_true, true_and]
        push_cast
        omega
      · rw [if_neg hnt, if_neg (show ¬(((n + 1 : Nat) : Int) < t) by push_cast; omega)]
    · have hstep : decayPoops [⟨p, t⟩] = [] := by
        simp [decayPoops]
        omega
      rw [hstep, Function.iterate_fixed decayPoops_nil]
      rw [if_neg (show ¬(((n + 1 : Nat) : Int) < t) by push_cast; omega)]

lemma idleThreshold_succ_le (l : Int) :
    idleThreshold (l + 1) ≤ idleThreshold l := by
  unfold idleThreshold
  exact max_le_max le_rfl (by omega)

lemma speed_foldl_floor (l : List Bool) :
    ∀ t : Int, MIN_TICK_MS ≤ t →
      MIN_TICK_MS ≤ l.foldl (fun t b => applyLevelUp b t) t := by
  induction l with
  | nil => intro t ht; simpa using ht
  | cons b rest ih =>
    intro t ht
    simp only [List.foldl_cons]
    apply ih
    cases b with
    | false => simpa [applyLevelUp] using ht
    | true => simp [applyLevelUp]

/-- C4: for every sequence of level-up/growth/reward tick batches, the tick
interval produced by `main`'s floor-clamped adjustment rule stays at or
above the configured floor `MIN_TICK_MS` (30 ms), starting from
`BASE_TICK_MS`. -/
theorem C4_tick_interval_floor (triggers : List Bool) :
    MIN_TICK_MS ≤ speedAfter triggers := by
  exact speed_foldl_floor triggers BASE_TICK_MS (by norm_num [MIN_TICK_MS, BASE_TICK_MS])

/-- C9 counterexample: `wrap` is not reduction modulo the board size for
positions farther than one step out of range.  At p = (-2, 0) the code
yields row 19 while (-2) mod ROWS = 18. -/
theorem C9_counterexample_wrap_not_mod :
    wrap ⟨-2, 0⟩ ≠ ⟨(-2 : Int) % ROWS, (0 : Int) % COLS⟩ ∧
    wrap ⟨-2, 0⟩ = ⟨19, 0⟩ ∧ (-2 : Int) % ROWS = 18 := by
  refine ⟨?_, ?_, ?_⟩ <;> decide

/-- C9 (amended): `wrap` is a total pure function that agrees with reduction
modulo ROWS/COLS — landing in [0,ROWS) × [0,COLS) — on every position at
most one step out of range (the only inputs `next_head` ever feeds it);
for farther-out inputs it clamps instead of reducing. -/
theorem C9_wrap_mod_one_step (p : Point)
    (hr1 : -1 ≤ p.r) (hr2 : p.r ≤ ROWS) (hc1 : -1 ≤ p.c) (hc2 : p.c ≤ COLS) :
    wrap p = ⟨p.r % ROWS, p.c % COLS⟩ ∧
    0 ≤ (wrap p).r ∧ (wrap p).r < ROWS ∧ 0 ≤ (wrap p).c ∧ (wrap p).c < COLS := by
  simp only [ROWS, COLS] at hr1 hr2 hc1 hc2 ⊢
  refine ⟨?_, ?_, ?_, ?_, ?_⟩ <;>
    simp only [wrap, ROWS, COLS, Point.mk.injEq] <;>
    split_ifs <;> omega

/-- C9 witness: the amended statement applied at the concrete one-step
out-of-range position (-1, 80). -/
theorem C9_wrap_witness :
    wrap ⟨-1, 80⟩ = ⟨(-1 : Int) % ROWS, (80 : Int) % COLS⟩ ∧
    0 ≤ (wrap ⟨-1, 80⟩).r ∧ (wrap ⟨-1, 80⟩).r < ROWS ∧
    0 ≤ (wrap ⟨-1, 80⟩).c ∧ (wrap ⟨-1, 80⟩).c < COLS :=
  C9_wrap_mod_one_step ⟨-1, 80⟩ (by decide) (by decide) (by decide) (by decide)

/-- C2 counterexample: a Poop reaching the end of its lifetime is removed
with ZERO side effects, not "exactly one penalty side effect".  In state
`gC2` one Poop (ttl 1) expires during a normal movement tick: afterwards
the poop list is empty while score, snake length, pending drops are
unchanged and no sound is emitted.  There are also no Fresh/Armed states or
W1/W2 windows anywhere in the code: a Poop carries only a ttl counter. -/
theorem C2_counterexample_silent_expiry :
    gC2.poops = [⟨⟨3, 3⟩, 1⟩] ∧
    (update gC2 []).map
        (fun x => (x.1.poops, x.1.score, x.1.snake.length, x.1.poop_to_drop, x.2))
      = some ([], 0, 3, 0, []) := by
  refine ⟨?_, ?_⟩ <;> decide

/-- C2 (amended): an active Poop's presence is a pure function of elapsed
ticks since creation: created with ttl = POOP_TTL (12), it survives exactly
while elapsed < POOP_TTL (with ttl = POOP_TTL - elapsed) and is removed on
the tick elapsed reaches POOP_TTL — silently, with no penalty side effect
and no intermediate lifecycle states. -/
theorem C2_poop_lifetime_pure (p : Point) (n : Nat) :
    decayPoops^[n] [⟨p, POOP_TTL⟩] =
      if (n : Int) < POOP_TTL then [⟨p, POOP_TTL - (n : Int)⟩] else [] :=
  decayIter_singleton n POOP_TTL p (by norm_num [POOP_TTL])

lemma onSnake_dropLast_cons (p nh : Point) (s : List Point)
    (hs : onSnake p s = false) (hnh : ¬(nh.r = p.r ∧ nh.c = p.c)) :
    onSnake p ((nh :: s).dropLast) = false := by
  rw [onSnake_eq_false_iff] at hs ⊢
  intro q hq
  have hq2 : q ∈ nh :: s := List.dropLast_subset _ hq
  rcases List.mem_cons.mp hq2 with rfl | h2
  · exact hnh
  · exact hs q h2

/-- C5: the Food position never coincides with a Snake cell: the
constructor establishes it and every successful `update` tick preserves it
(including the eating-completion tick, whose fresh Food is drawn to avoid
the just-grown snake). -/
theorem C5_food_not_on_snake :
    (∀ cs g, initGame cs = some g → onSnake g.food g.snake = false) ∧
    (∀ g cs g' s, update g cs = some (g', s) →
      onSnake g.food g.snake = false → onSnake g'.food g'.snake = false) := by
  constructor
  · intro cs g h
    rcases hpf : placeFood initSnake cs with _ | f
    · simp [initGame, hpf] at h
    · simp [initGame, hpf] at h
      subst h
      simpa using placeFood_not_onSnake initSnake cs f hpf
  · intro g cs g' s h hinv
    rcases update_eq_cases g cs g' s h with
      ⟨_, rfl, _⟩ | ⟨_, _, _, _, rfl, _⟩ | ⟨_, _, _, hcol, f, hpf, rfl, _⟩ |
      ⟨_, _, _, rfl, _⟩ | ⟨_, _, _, rfl, _⟩ | ⟨_, _, hfood, _, rfl, _⟩ |
      ⟨_, _, hfood, _, _, rfl, _⟩ | ⟨_, _, hfood, _, _, rfl, _⟩
    · exact hinv
    · simpa using hinv
    · simpa using placeFood_not_onSnake _ cs f hpf
    · simpa using hinv
    · simpa using hinv
    · simpa using hinv
    · simpa using
        onSnake_dropLast_cons g.food (nextHead g.dir g.snake.headI) g.snake
          hinv hfood
    · simpa using
        onSnake_dropLast_cons g.food (nextHead g.dir g.snake.headI) g.snake
          hinv hfood

/-- C5 witness: the invariant concretely, at the constructed state `gInit`
and across the concrete tick `update gC2 [] = some (gC2res, [])`. -/
theorem C5_witness :
    onSnake gInit.food gInit.snake = false ∧
    onSnake gC2res.food gC2res.snake = false :=
  ⟨C5_food_not_on_snake.1 [⟨0, 0⟩] gInit (by decide),
   C5_food_not_on_snake.2 gC2 [] gC2res [] (by decide) (by decide)⟩

/-- C6: the Snake's length is exactly 3 after the constructor, and no
successful `update` tick ever brings it below 3 (movement preserves the
length, eating-completion grows it, terminal ticks leave it unchanged); in
particular the Snake is never empty. -/
theorem C6_min_length :
    (∀ cs g, initGame cs = some g → g.snake.length = 3) ∧
    (∀ g cs g' s, update g cs = some (g', s) →
      3 ≤ g.snake.length → 3 ≤ g'.snake.length) := by
  constructor
  · intro cs g h
    rcases hpf : placeFood initSnake cs with _ | f
    · simp [initGame, hpf] at h
    · simp [initGame, hpf] at h
      subst h
      rfl
  · intro g cs g' s h hlen
    rcases update_eq_cases g cs g' s h with
      ⟨_, rfl, _⟩ | ⟨_, _, _, _, rfl, _⟩ | ⟨_, _, _, _, f, _, rfl, _⟩ |
      ⟨_, _, _, rfl, _⟩ | ⟨_, _, _, rfl, _⟩ | ⟨_, _, _, _, rfl, _⟩ |
      ⟨_, _, _, _, _, rfl, _⟩ | ⟨_, _, _, _, _, rfl, _⟩
    · exact hlen
    · simpa using hlen
    · simp only [List.length_cons]
      omega
    · simpa using hlen
    · simpa using hlen
    · simpa using hlen
    · simpa [List.length_dropLast] using hlen
    · simpa [List.length_dropLast] using hlen

/-- C6 witness: length 3 at the constructed state `gInit`, and preservation
across the concrete tick `update gC2 [] = some (gC2res, [])`. -/
theorem C6_witness :
    gInit.snake.length = 3 ∧ 3 ≤ gC2res.snake.length :=
  ⟨C6_min_length.1 [⟨0, 0⟩] gInit (by decide),
   C6_min_length.2 gC2 [] gC2res [] (by decide) (by decide)⟩

/-- C10: score = 10 × (snake length − 3) at every tick boundary: it holds
after the constructor, and every successful `update` tick either leaves
both length and score unchanged, or — exactly on a tick completing the
eating sub-state — grows the length by 1 while adding 10 to the score. -/
theorem C10_score_tracks_length :
    (∀ cs g, initGame cs = some g →
      g.score = 10 * ((g.snake.length : Int) - 3)) ∧
    (∀ g cs g' s, update g cs = some (g', s) →
      g.score = 10 * ((g.snake.length : Int) - 3) →
      (g'.score = 10 * ((g'.snake.length : Int) - 3) ∧
        ((g'.snake.length = g.snake.length ∧ g'.score = g.score) ∨
          (g'.snake.length = g.snake.length + 1 ∧ g'.score = g.score + 10 ∧
            g.consuming = true ∧ g.chomp_frames ≤ 1)))) := by
  constructor
  · intro cs g h
    rcases hpf : placeFood initSnake cs with _ | f
    · simp [initGame, hpf] at h
    · simp [initGame, hpf] at h
      subst h
      rfl
  · intro g cs g' s h hinv
    rcases update_eq_cases g cs g' s h with
      ⟨_, rfl, _⟩ | ⟨_, _, _, _, rfl, _⟩ | ⟨_, hcons, hch, _, f, _, rfl, _⟩ |
      ⟨_, _, _, rfl, _⟩ | ⟨_, _, _, rfl, _⟩ | ⟨_, _, _, _, rfl, _⟩ |
      ⟨_, _, _, _, _, rfl, _⟩ | ⟨_, _, _, _, _, rfl, _⟩
    · exact ⟨hinv, Or.inl ⟨rfl, rfl⟩⟩
    · exact ⟨hinv, Or.inl ⟨rfl, rfl⟩⟩
    · refine ⟨?_, Or.inr ⟨by simp, rfl, hcons, hch⟩⟩
      simp only [List.length_cons]
      push_cast at hinv ⊢
      omega
    · exact ⟨hinv, Or.inl ⟨rfl, rfl⟩⟩
    · exact ⟨hinv, Or.inl ⟨rfl, rfl⟩⟩
    · exact ⟨hinv, Or.inl ⟨rfl, rfl⟩⟩
    · refine ⟨?_, Or.inl ⟨by simp [List.length_dropLast], rfl⟩⟩
      simpa [List.length_dropLast] using hinv
    · refine ⟨?_, Or.inl ⟨by simp [List.length_dropLast], rfl⟩⟩
      simpa [List.length_dropLast] using hinv

/-- C10 witness: the invariant step applied to the concrete tick
`update gC2 [] = some (gC2res, [])`. -/
theorem C10_witness :
    gC2res.score = 10 * ((gC2res.snake.length : Int) - 3) ∧
    ((gC2res.snake.length = gC2.snake.length ∧ gC2res.score = gC2.score) ∨
      (gC2res.snake.length = gC2.snake.length + 1 ∧
        gC2res.score = gC2.score + 10 ∧
        gC2.consuming = true ∧ gC2.chomp_frames ≤ 1)) :=
  C10_score_tracks_length.2 gC2 [] gC2res [] (by decide) (by decide)

/-- C1: whenever the prospective head cell lands on an existing snake cell
— on a normal movement tick, or on the tick completing the eating
sub-state — `update` transitions to GameOver with no growth, no score
change, no Deposit drop and no sound; and conversely, a tick can newly set
`game_over` only when the prospective head collides, again with snake,
score, pending drops and food left untouched (the poop list undergoes only
the ordinary per-tick decay that precedes the collision check).  The
hypothesis that Food is off the snake is the reachable-state invariant
proved as C5. -/
theorem C1_self_collision_gameover (g : Game) (cs : List Point)
    (hgo : g.game_over = false)
    (hinv : onSnake g.food g.snake = false) :
    ((g.consuming = false ∧
        onSnake (nextHead g.dir g.snake.headI) g.snake = true) →
      update g cs =
        some ({ g with poops := decayPoops g.poops, game_over := true }, [])) ∧
    ((g.consuming = true ∧ g.chomp_frames ≤ 1 ∧
        onSnake (nextHead g.dir g.snake.headI) g.snake = true) →
      update g cs =
        some ({ g with
                poops := decayPoops g.poops
                chomp_frames := g.chomp_frames - 1
                game_over := true }, [])) ∧
    (∀ g' s, update g cs = some (g', s) → g'.game_over = true →
      (onSnake (nextHead g.dir g.snake.headI) g.snake = true ∧ s = [] ∧
        g'.snake = g.snake ∧ g'.score = g.score ∧
        g'.poop_to_drop = g.poop_to_drop ∧ g'.poops = decayPoops g.poops ∧
        g'.food = g.food)) := by
  refine ⟨?_, ?_, ?_⟩
  · rintro ⟨hcons, hcol⟩
    have hfood : ¬((nextHead g.dir g.snake.headI).r = g.food.r ∧
        (nextHead g.dir g.snake.headI).c = g.food.c) := by
      rintro ⟨hr, hc⟩
      rcases (onSnake_eq_true_iff _ _).mp hcol with ⟨q, hq, hqr, hqc⟩
      exact (onSnake_eq_false_iff _ _).mp hinv q hq ⟨hqr.trans hr, hqc.trans hc⟩
    simp [update, hgo, hcons, hfood, hcol]
  · rintro ⟨hcons, hch, hcol⟩
    simp [update, hgo, hcons, hch, hcol]
  · intro g' s h hgo2
    rcases update_eq_cases g cs g' s h with
      ⟨h1, _, _⟩ | ⟨_, _, _, hcol, rfl, rfl⟩ | ⟨_, _, _, _, f, _, rfl, rfl⟩ |
      ⟨_, _, _, rfl, rfl⟩ | ⟨_, _, _, rfl, rfl⟩ | ⟨_, _, _, hcol, rfl, rfl⟩ |
      ⟨_, _, _, _, _, rfl, rfl⟩ | ⟨_, _, _, _, _, rfl, rfl⟩
    · simp [h1] at hgo
    · exact ⟨hcol, rfl, rfl, rfl, rfl, rfl, rfl⟩
    · simp [hgo] at hgo2
    · simp [hgo] at hgo2
    · simp [hgo] at hgo2
    · exact ⟨hcol, rfl, rfl, rfl, rfl, rfl, rfl⟩
    · simp [hgo] at hgo2
    · simp [hgo] at hgo2

/-- C1 witness: at the concrete colliding state `gC1` (head moving Down
into its own body) the tick ends in GameOver with no other state change. -/
theorem C1_witness :
    update gC1 [] =
      some ({ gC1 with poops := decayPoops gC1.poops, game_over := true }, []) :=
  (C1_self_collision_gameover gC1 [] (by decide) (by decide)).1
    ⟨by decide, by decide⟩

/-- C3 counterexample: in `snake_win.cpp`, the tick that completes the
eating sub-state while crossing a 100-point boundary emits TWO sounds
(level-up then bite), refuting "at most one sound identifier per tick". -/
theorem C3_counterexample_two_sounds :
    (wupdate gC3 [⟨0, 0⟩]).map (fun x => x.2) =
      some [Sound.levelup, Sound.bite] ∧
    (wupdate gC3 [⟨0, 0⟩]).map (fun x => x.2.length) = some 2 := by
  refine ⟨?_, ?_⟩ <;> decide

/-- C3 (amended): within any single tick `wupdate` emits at most two sound
identifiers, and it emits two exactly when the eating sub-state completes
on a level-up (the level-up sound followed by the bite sound); every other
tick emits at most one. -/
theorem C3_at_most_two_sounds_per_tick (g : WGame) (cs : List Point)
    (g' : WGame) (s : List Sound) (h : wupdate g cs = some (g', s)) :
    s.length ≤ 2 ∧
    (s.length = 2 →
      (s = [Sound.levelup, Sound.bite] ∧ g.consuming = true ∧
        g.chomp_frames ≤ 1 ∧ (g.score + 10) % 100 = 0)) := by
  rcases wupdate_eq_cases g cs g' s h with
    ⟨_, _, rfl⟩ | ⟨_, _, _, _, _, rfl⟩ |
    ⟨_, hcons, hch, _, hlvl, f, _, _, rfl⟩ |
    ⟨_, _, _, _, _, f, _, _, rfl⟩ | ⟨_, _, _, _, rfl⟩ | ⟨_, _, _, _, rfl⟩ |
    ⟨_, _, _, _, _, rfl⟩ | ⟨_, _, _, _, _, _, rfl⟩ | ⟨_, _, _, _, _, _, rfl⟩
  · exact ⟨by simp, by simp⟩
  · exact ⟨by simp, by simp⟩
  · exact ⟨by simp, fun _ => ⟨rfl, hcons, hch, hlvl⟩⟩
  · exact ⟨by simp, by simp⟩
  · exact ⟨by simp, by simp⟩
  · exact ⟨by simp, by simp⟩
  · exact ⟨by simp, by simp⟩
  · exact ⟨by simp, by simp⟩
  · exact ⟨by simp, by simp⟩

/-- C3 witness: the amended bound applied to the concrete level-up tick
`wupdate gC3 [⟨0,0⟩]`. -/
theorem C3_witness :
    [Sound.levelup, Sound.bite].length ≤ 2 ∧
    ([Sound.levelup, Sound.bite].length = 2 →
      ([Sound.levelup, Sound.bite] = [Sound.levelup, Sound.bite] ∧
        gC3.consuming = true ∧ gC3.chomp_frames ≤ 1 ∧
        (gC3.score + 10) % 100 = 0)) :=
  C3_at_most_two_sounds_per_tick gC3 [⟨0, 0⟩] gC3res
    [Sound.levelup, Sound.bite] (by decide)

/-- C8: when the score crosses a multiple of 100 on the tick the eating
sub-state completes, the level increments by exactly 1, the one-shot
trigger is set so that `main` applies exactly one floor-clamped
`TICK_DECR_MS` decrement to any tick interval `t`, and the (spec-modelled)
idle threshold of the new level is ≤ the previous level's threshold. -/
theorem C8_levelup_tick (g : WGame) (cs : List Point) (g' : WGame)
    (s : List Sound) (t : Int)
    (h : wupdate g cs = some (g', s))
    (hgo : g.game_over = false) (hcons : g.consuming = true)
    (hch : g.chomp_frames ≤ 1)
    (hcol : onSnake (nextHead g.dir g.snake.headI) g.snake = false)
    (hsc : (g.score + 10) % 100 = 0) :
    g'.level = g.level + 1 ∧ g'.level_up_trigger = true ∧
    applyLevelUp g'.level_up_trigger t = max MIN_TICK_MS (t - TICK_DECR_MS) ∧
    idleThreshold g'.level ≤ idleThreshold g.level := by
  rcases wupdate_eq_cases g cs g' s h with
    ⟨h1, _, _⟩ | ⟨_, _, _, h4, _, _⟩ | ⟨_, _, _, _, _, f, _, rfl, _⟩ |
    ⟨_, _, _, _, h5, _, _, _, _⟩ | ⟨_, _, h3, _, _⟩ | ⟨_, h2, _, _, _⟩ |
    ⟨_, h2, _, _, _, _⟩ | ⟨_, h2, _, _, _, _, _⟩ | ⟨_, h2, _, _, _, _, _⟩
  · simp [h1] at hgo
  · simp [h4] at hcol
  · exact ⟨rfl, rfl, by simp [applyLevelUp], idleThreshold_succ_le g.level⟩
  · exact absurd hsc h5
  · exact absurd hch h3
  · simp [h2] at hcons
  · simp [h2] at hcons
  · simp [h2] at hcons
  · simp [h2] at hcons

/-- C8 witness: the level-up tick properties at the concrete transition
`wupdate gC3 [⟨0,0⟩] = some (gC3res, [levelup, bite])` with t = 100 ms. -/
theorem C8_witness :
    gC3res.level = gC3.level + 1 ∧ gC3res.level_up_trigger = true ∧
    applyLevelUp gC3res.level_up_trigger 100 =
      max MIN_TICK_MS (100 - TICK_DECR_MS) ∧
    idleThreshold gC3res.level ≤ idleThreshold gC3.level :=
  C8_levelup_tick gC3 [⟨0, 0⟩] gC3res [Sound.levelup, Sound.bite] 100
    (by decide) (by decide) (by decide) (by decide) (by decide) (by decide)

/-- C7: the end-to-end scenario from `gC7` (length-3 snake moving Right,
Food two cells ahead): after 2 ticks the game is in the Eating sub-state
with the snake where tick 1 left it (no movement on tick 2); after
CHOMP_TOTAL = 8 further ticks the snake has length 4, the score rose by 10
and 3 deposit drops are pending; and the next 3 moving ticks each place one
poop at the just-vacated tail cell — (10,39), (10,40), (10,41) — after
which the pending-drop counter is 0. -/
theorem C7_eat_scenario :
    ((run gC7 (List.replicate 2 [⟨0, 0⟩])).map
        (fun g => (g.consuming, g.snake)))
      = some (true, [⟨10, 41⟩, ⟨10, 40⟩, ⟨10, 39⟩]) ∧
    ((run gC7 (List.replicate 10 [⟨0, 0⟩])).map
        (fun g => (g.snake.length, g.score, g.poop_to_drop)))
      = some (4, 10, 3) ∧
    ((run gC7 (List.replicate 11 [⟨0, 0⟩])).map
        (fun g => g.poops.map (fun q => q.p)))
      = some [⟨10, 39⟩] ∧
    ((run gC7 (List.replicate 12 [⟨0, 0⟩])).map
        (fun g => g.poops.map (fun q => q.p)))
      = some [⟨10, 39⟩, ⟨10, 40⟩] ∧
    ((run gC7 (List.replicate 13 [⟨0, 0⟩])).map
        (fun g => (g.poops.map (fun q => q.p), g.poop_to_drop)))
      = some ([⟨10, 39⟩, ⟨10, 40⟩, ⟨10, 41⟩], 0) := by
  refine ⟨?_, ?_, ?_, ?_, ?_⟩ <;> decide

end Snake
